import Mathlib

/-!
Verification development for the Up/Down training-session controller
(game.py, config.py, main_wit.py).  Each definition is a shallow embedding
of the corresponding Python function; stateful methods become explicit
state-passing functions, Python dict subscripting becomes an association-list
lookup returning an error on a missing key, and time is modelled with
integer timestamps.
-/

namespace UpDown

/- ===================== config.py constants ===================== -/

/-- config.py line 36. -/
def MAX_PISHOCK_CYCLES : Nat := 7

/-- config.py line 40 (seconds). -/
def VOID_BREAK_DURATION : Int := 180

/-- config.py line 57 (seconds). -/
def TOTAL_EXTENSION_TIME_ALLOWED : Int := 4 * 3600

/-- config.py line 167 (seconds). -/
def CYCLE_COMPLETION_BONUS : Int := 20 * 60

/-- config.py line 65 (seconds). -/
def PREPARATION_WINDOW : Int := 20

/-- config.py line 58 (seconds). -/
def EXTENSION_REQUEST_COOLDOWN : Int := 25

/-- The three difficulty levels keyed in config.py's LEVEL_CONFIG dict. -/
inductive Level
| easy
| medium
| hard
deriving DecidableEq, Repr

/-- The dict keys read from a level's configuration record anywhere in
game.py: the four keys present in config.py lines 145-164, plus
violation_limit, which game.py lines 586, 609 and 1058 subscript. -/
inductive ConfigKey
| round_duration
| transition_time
| hold_time_up
| hold_time_down
| violation_limit
deriving DecidableEq, Repr

/-- Python runtime errors that the modelled code can raise. -/
inductive PyError
| keyError (k : ConfigKey)
| typeError
| nameError
deriving DecidableEq, Repr

/-- LEVEL_CONFIG from config.py lines 145-164, transcribed entry for entry.
Every value in the source is a 2-tuple of numbers; note that none of the
three records contains a violation_limit entry. -/
def LEVEL_CONFIG : Level → List (ConfigKey × Int × Int)
| .easy =>
  [(.round_duration, 18, 30), (.transition_time, 10, 12),
   (.hold_time_up, 3, 8), (.hold_time_down, 12, 16)]
| .medium =>
  [(.round_duration, 24, 36), (.transition_time, 8, 10),
   (.hold_time_up, 7, 12), (.hold_time_down, 8, 12)]
| .hard =>
  [(.round_duration, 30, 42), (.transition_time, 6, 8),
   (.hold_time_up, 11, 16), (.hold_time_down, 4, 8)]

/-- Python dict subscript `d[k]`: the value, or a KeyError on a missing key. -/
def dictGet (d : List (ConfigKey × Int × Int)) (k : ConfigKey) :
    Except PyError (Int × Int) :=
  match d.lookup k with
  | none => .error (.keyError k)
  | some v => .ok v

/-- UpDownGame.end_round's pass/fail computation (game.py lines 1057-1058):
`passed = self.round_violations < config['violation_limit']`.  The subscript
is modelled by dictGet; were a tuple value present under that key, the
comparison int < tuple would itself raise a TypeError, so a Bool is only
produced from a (nonexistent) scalar entry. -/
def end_round_passed (lvl : Level) (round_violations : Int) :
    Except PyError Bool :=
  match dictGet (LEVEL_CONFIG lvl) ConfigKey.violation_limit with
  | .error e => .error e
  | .ok _ => .error .typeError

/- ===================== round-result ledger (game.py) ===================== -/

/-- The UpDownGame fields read or written by apply_round_result, void_round
and start_round (game.py lines 64-145 initialise them). -/
structure GameSt where
  completed_training_time : Int
  current_level : Level
  current_round_duration : Int
  round_violations : Int
  void_occurred : Bool
  extension_qualified : Bool
  last_round_passed : Option Bool
deriving DecidableEq, Repr

/-- UpDownGame.apply_round_result (game.py lines 569-625), translated
statement by statement.  The logger.info f-string on line 586 (pass branch)
and the logger.warning f-string on line 609 (fail branch) each subscript
`config['violation_limit']`; since Python evaluates the f-string before the
logging call, a missing key aborts the method there, and the mutations made
up to that point persist on the object.  The result is the state after the
method together with the error it raised, if any. -/
def apply_round_result (passed : Bool) (s : GameSt) : GameSt × Option PyError :=
  let s := { s with last_round_passed := some passed }
  let s :=
    if !s.void_occurred then
      { s with completed_training_time :=
          s.completed_training_time + s.current_round_duration }
    else s
  if passed then
    match dictGet (LEVEL_CONFIG s.current_level) ConfigKey.violation_limit with
    | .error e => (s, some e)
    | .ok _ =>
      let s :=
        match s.current_level with
        | .easy => { s with current_level := .medium, extension_qualified := false }
        | .medium => { s with current_level := .hard, extension_qualified := false }
        | .hard =>
          { s with
            completed_training_time := s.completed_training_time + CYCLE_COMPLETION_BONUS,
            current_level := .easy,
            extension_qualified := true }
      ({ s with round_violations := 0, void_occurred := false }, none)
  else
    match dictGet (LEVEL_CONFIG s.current_level) ConfigKey.violation_limit with
    | .error e => (s, some e)
    | .ok _ =>
      let s := { s with current_level := .easy }
      let s :=
        if !s.void_occurred then { s with extension_qualified := true }
        else { s with extension_qualified := false }
      ({ s with round_violations := 0, void_occurred := false }, none)

/-- UpDownGame.void_round's effect on the ledger fields (game.py lines
395-448, normal completion of the forced break): on entry it sets
void_occurred and round_violations := 999 (lines 402-403), and after the
break it resets the violation counters (line 440).  It never resets
void_occurred. -/
def void_round_ledger (s : GameSt) : GameSt :=
  let s := { s with void_occurred := true, round_violations := 999 }
  { s with round_violations := 0 }

/-- UpDownGame.start_round's effect on the ledger fields (game.py lines
723-749): a fresh duration is drawn and the round violation counter is
reset; void_occurred is not touched. -/
def start_round_ledger (duration : Int) (s : GameSt) : GameSt :=
  { s with current_round_duration := duration, round_violations := 0 }

/-- A UpDownGame ledger as __init__ leaves it (game.py lines 83-132),
with completed_training_time 0, level easy and all flags clear. -/
def initLedger : GameSt :=
  { completed_training_time := 0, current_level := .easy,
    current_round_duration := 0, round_violations := 0,
    void_occurred := false, extension_qualified := false,
    last_round_passed := none }

/- ===================== phase poll iterations (game.py) ===================== -/

/-- GameState (game.py lines 45-54). -/
inductive GameState
| waiting
| preparation
| round
| breakState
| extendedBreak
| paused
| finished
| emergency
deriving DecidableEq, Repr

/-- What one poll iteration of a phase loop decides to do next. -/
inductive Outcome
| cont
| endGame
| endRound
| endBreak
| sensorLossHandling
| runExtensionStep
| startExtensionFlow
| endExtension
| phaseDone
deriving DecidableEq, Repr

/-- One poll of the preparation button window (game.py lines 686-709).
The loop guard is time-in-window < PREPARATION_WINDOW; the body reads the
two buttons (and runs an extension inline on an eligible Button-1 press).
It reads nothing else: in particular it never consults the session
deadline, which is passed here only to record that it is available. -/
def prep_iter (elapsed : Int) (deadlineReached : Bool) (pressed1 : Bool)
    (extension_qualified : Bool) (pressed2 : Bool) : Outcome :=
  if elapsed < PREPARATION_WINDOW then
    if pressed1 && extension_qualified then .startExtensionFlow else .cont
  else .phaseDone

/-- One poll of the main round loop's leading checks (game.py lines
789-811): sensor-loss first, then the violation-adjusted round clock
against the drawn duration, then the session deadline; otherwise the
iteration falls through to the positional STATE 1 / STATE 2 logic and
sleeps. -/
def round_iter (bothSensorsLost : Bool) (roundElapsedAdj : Int)
    (roundDuration : Int) (deadlineReached : Bool) : Outcome :=
  if bothSensorsLost then .sensorLossHandling
  else if roundDuration ≤ roundElapsedAdj then .endRound
  else if deadlineReached then .endGame
  else .cont

/-- One poll of the break loop (game.py lines 1122-1161): an active
extension delegates to run_extension; then break expiry, then the session
deadline, then the Button-1 rising edge gated by the request cooldown. -/
def break_iter (extensionActive : Bool) (breakElapsed : Int)
    (breakDuration : Int) (deadlineReached : Bool) (button1Rising : Bool)
    (cooldownPassed : Bool) : Outcome :=
  if extensionActive then .runExtensionStep
  else if breakDuration ≤ breakElapsed then .endBreak
  else if deadlineReached then .endGame
  else if button1Rising && cooldownPassed then .startExtensionFlow
  else .cont

/-- One poll of the forced void break (game.py lines 418-431).  The loop
guard is elapsed < VOID_BREAK_DURATION and the body checks only for sensor
loss; the session deadline is never consulted. -/
def void_break_iter (voidElapsed : Int) (bothSensorsLost : Bool)
    (deadlineReached : Bool) : Outcome :=
  if voidElapsed < VOID_BREAK_DURATION then
    if bothSensorsLost then .sensorLossHandling else .cont
  else .phaseDone

/-- One poll of an active extension (run_extension, game.py lines
1232-1274): fan scheduling is a side effect; any button press ends the
extension; the session deadline is never consulted. -/
def extension_iter (fanDue : Bool) (button1Rising : Bool)
    (button2Rising : Bool) (deadlineReached : Bool) : Outcome :=
  if button1Rising || button2Rising then .endExtension
  else .cont

/- ===================== enter_preparation tail (game.py) ===================== -/

/-- Externally visible events of the session tail sequence. -/
inductive Ev
| strobeOff
| roundStarted
| gameEnded
deriving DecidableEq, Repr

/-- A session's control state together with its event log. -/
structure SessionTrace where
  state : GameState
  log : List Ev
deriving DecidableEq, Repr

/-- strobe_control("off") as logged by enter_preparation (game.py lines
712 and 718). -/
def strobe_off_call (t : SessionTrace) : SessionTrace :=
  { t with log := t.log ++ [Ev.strobeOff] }

/-- UpDownGame.end_game (game.py lines 1347-1369): sets state := FINISHED
and returns to its awaiting caller. -/
def end_game_call (t : SessionTrace) : SessionTrace :=
  { state := GameState.finished, log := t.log ++ [Ev.gameEnded] }

/-- UpDownGame.start_round (game.py lines 723-749): sets state := ROUND on
entry (line 725) and then awaits the nested round chain; `chain` abstracts
the nested chain's net effect up to the point where start_round returns. -/
def start_round_call (chain : SessionTrace → SessionTrace)
    (t : SessionTrace) : SessionTrace :=
  chain { state := GameState.round, log := t.log ++ [Ev.roundStarted] }

/-- The code that follows the preparation button window inside
enter_preparation (game.py lines 711-721), transcribed in order: turn the
strobe off, start a round, then turn the strobe off again and start a round
again. -/
def enter_preparation_tail (chain : SessionTrace → SessionTrace)
    (t : SessionTrace) : SessionTrace :=
  start_round_call chain (strobe_off_call (start_round_call chain (strobe_off_call t)))

/- ===================== sensor queue and fusion ===================== -/

/-- SensorState (main_wit.py lines 23-27). -/
inductive SensorState
| disconnected
| connecting
| connected
| error
deriving DecidableEq, Repr

/-- One sensor's slice of the SensorDataQueue singleton (main_wit.py lines
70-133): the stored state, the last_update_time entry (0 when absent, as
`last_update_time.get(id, 0)` yields), and the newest queued frame's
angle_x (none for an empty deque). -/
structure SensorSlot where
  stored : SensorState
  lastUpdate : Int
  latest : Option Int
deriving DecidableEq, Repr

/-- SensorDataQueue.get_sensor_state (main_wit.py lines 118-125): a sensor
with no update in the last 5 seconds is demoted to DISCONNECTED before its
state is returned. -/
def get_sensor_state (slot : SensorSlot) (now : Int) : SensorState :=
  if now - slot.lastUpdate > 5 then .disconnected else slot.stored

/-- SensorDataQueue.get_all_angles (main_wit.py lines 106-116): every known
sensor id gets an entry, holding the newest frame's angle or 0 for an empty
queue; no entry is ever None. -/
def get_all_angles_entry (slot : SensorSlot) : Int :=
  slot.latest.getD 0

/-- Audio cues dispatched by the sensor logic and the break logic
(audio.py lines 300-340). -/
inductive AudioCue
| sensorIssue
| sensorIssueResolved
| extensionGranted
| extensionDenied
| extensionDeniedLimit
deriving DecidableEq, Repr

/-- The UpDownGame fields read and written by get_board_angle (game.py
lines 69-70 and 144): which sensor is active ('w_back.txt' when the flag is
true) and whether both sensors had been lost. -/
structure FusionState where
  activeIsPrimary : Bool
  both_sensors_were_lost : Bool
deriving DecidableEq, Repr

/-- Result of a get_board_angle call: the returned angle, the updated
fusion flags, and the audio cues played during the call. -/
structure AngleResult where
  angle : Option Int
  fusion : FusionState
  cues : List AudioCue
deriving DecidableEq, Repr

/-- UpDownGame.get_board_angle (game.py lines 158-228).  Availability of a
source requires state == CONNECTED (after get_sensor_state's staleness
demotion), an update newer than now - 5, and a non-None angles entry — the
last is always true since get_all_angles populates every id.  The primary
is always tried first; switching back to it clears the both-lost flag and
plays the resolved cue only if that flag was set; falling back to the
backup plays nothing; with neither available the both-lost flag is set
idempotently and None is returned. -/
def get_board_angle (f : FusionState) (primary backup : SensorSlot)
    (now : Int) : AngleResult :=
  let primary_state := get_sensor_state primary now
  let backup_state := get_sensor_state backup now
  let primary_recent := decide (primary.lastUpdate > now - 5)
  let backup_recent := decide (backup.lastUpdate > now - 5)
  let primary_has_data := true
  let backup_has_data := true
  let primary_available :=
    decide (primary_state = SensorState.connected) && primary_recent && primary_has_data
  let backup_available :=
    decide (backup_state = SensorState.connected) && backup_recent && backup_has_data
  if primary_available then
    let switchBackCueDue := !f.activeIsPrimary && f.both_sensors_were_lost
    { angle := some (get_all_angles_entry primary),
      fusion :=
        { activeIsPrimary := true,
          both_sensors_were_lost :=
            if switchBackCueDue then false else f.both_sensors_were_lost },
      cues := if switchBackCueDue then [AudioCue.sensorIssueResolved] else [] }
  else if backup_available then
    { angle := some (get_all_angles_entry backup),
      fusion := { f with activeIsPrimary := false },
      cues := [] }
  else
    { angle := none,
      fusion := { f with both_sensors_were_lost := true },
      cues := [] }

/-- The UpDownGame fields read and written by check_both_sensors_lost
(game.py lines 114-115). -/
structure LostFlags where
  both_sensors_lost : Bool
  sensor_loss_start : Option Int
deriving DecidableEq, Repr

/-- Result of a check_both_sensors_lost call. -/
structure LostResult where
  result : Bool
  flags : LostFlags
  cues : List AudioCue
deriving DecidableEq, Repr

/-- UpDownGame.check_both_sensors_lost (game.py lines 230-264).  A side is
counted unavailable when its (staleness-demoted) state is DISCONNECTED or
its update is 5 seconds old; the lost cue fires exactly on the falling edge
of the stored flag and the resolved cue exactly on the rising edge. -/
def check_both_sensors_lost (st : LostFlags) (primary backup : SensorSlot)
    (now : Int) : LostResult :=
  let primary_state := get_sensor_state primary now
  let backup_state := get_sensor_state backup now
  let primary_fresh := decide (primary.lastUpdate > now - 5)
  let backup_fresh := decide (backup.lastUpdate > now - 5)
  let both_lost :=
    (decide (primary_state = SensorState.disconnected) || !primary_fresh) &&
    (decide (backup_state = SensorState.disconnected) || !backup_fresh)
  if both_lost && !st.both_sensors_lost then
    { result := true,
      flags := { both_sensors_lost := true, sensor_loss_start := some now },
      cues := [AudioCue.sensorIssue] }
  else if !both_lost && st.both_sensors_lost then
    { result := false,
      flags := { both_sensors_lost := false, sensor_loss_start := none },
      cues := [AudioCue.sensorIssueResolved] }
  else
    { result := both_lost, flags := st, cues := [] }

/-- Repeated polling of check_both_sensors_lost over a list of queue
snapshots, threading the flags and collecting every cue played. -/
def run_sensor_checks (st : LostFlags) :
    List (SensorSlot × SensorSlot × Int) → LostFlags × List AudioCue
| [] => (st, [])
| x :: rest =>
  let r := check_both_sensors_lost st x.1 x.2.1 x.2.2
  ((run_sensor_checks r.flags rest).1, r.cues ++ (run_sensor_checks r.flags rest).2)

/- ===================== break extension requests ===================== -/

/-- The name BREAK_EXTENSION_CHANCE is referenced at game.py line 1190 but
is defined nowhere in the repository (config.py, hardware.py and audio.py
are star-imported and none binds it), so evaluating it raises NameError;
the absent binding is modelled as none. -/
def BREAK_EXTENSION_CHANCE : Option ℚ := none

/-- The UpDownGame fields read and written by process_extension_request
(game.py lines 126-128). -/
structure ExtLedger where
  total_extension_time_used : Int
  total_extension_requests : Nat
  last_extension_request_time : Int
deriving DecidableEq, Repr

/-- How a process_extension_request call resolves. -/
inductive ExtOutcome
| grantedStart
| deniedUnlucky
| deniedLimit
| raisedNameError
deriving DecidableEq, Repr

/-- UpDownGame.process_extension_request (game.py lines 1163-1202).  The
request counter and timestamp are updated first (lines 1178-1179); a pool
with no time remaining is denied with the limit cue (lines 1182-1187);
otherwise line 1190 evaluates `random.random() < BREAK_EXTENSION_CHANCE`,
whose right operand is an unbound name.  `draw` models random.random(). -/
def process_extension_request (st : ExtLedger) (now : Int) (draw : ℚ) :
    ExtLedger × ExtOutcome × List AudioCue :=
  let remaining := TOTAL_EXTENSION_TIME_ALLOWED - st.total_extension_time_used
  let st :=
    { st with
      total_extension_requests := st.total_extension_requests + 1,
      last_extension_request_time := now }
  if remaining ≤ 0 then
    (st, .deniedLimit, [AudioCue.extensionDeniedLimit])
  else
    match BREAK_EXTENSION_CHANCE with
    | none => (st, .raisedNameError, [])
    | some chance =>
      if draw < chance then (st, .grantedStart, [AudioCue.extensionGranted])
      else (st, .deniedUnlucky, [AudioCue.extensionDenied])

/- ===================== violation / shock escalation ===================== -/

/-- Where the round's violation machinery currently stands; each mode maps
to a region of UpDownGame.run_round / monitor_position_achievement:
initialWait is the opening DOWN verification (lines 764-775); holding is
STATE 1 with the position achieved; transition runs from a
command_position call until achievement, with the flag recording whether
the monitor task has fired its transition-time violation (lines 487-511);
state1Loop k is the shock loop of lines 874-900 with shocks_this_violation
= k; state2 c is the continuous-shock mode of lines 1009-1040 with
_continuous_shock_count = c. -/
inductive EpMode
| initialWait
| holding
| transition (violationFired : Bool)
| state1Loop (shocks : Nat)
| state2 (count : Nat)
deriving DecidableEq, Repr

/-- The violation-tracking fields of UpDownGame during a round, together
with the mode and a flag recording that a void has been triggered and
void_round is about to run. -/
structure ViolSt where
  mode : EpMode
  consecutive_violations : Nat
  round_violations : Nat
  void_pending : Bool
deriving DecidableEq, Repr

/-- The counter-mutating events of a round, each named for its source
site (run_round and monitor_position_achievement in game.py). -/
inductive VEvent
| initialPositionVerified
| holdCompleteCommand
| monitorViolation
| monitorAchieve
| graceLostCorrected
| maintainViolation
| state1Shock
| state1Reachieve
| state2Entered
| state2Correct
| state2Shock
| voidRoundReset
deriving DecidableEq, Repr

/-- One event step of the violation machinery; none when the event's
source-code guard cannot hold in the given mode.  Line references:
initialPositionVerified 770-772 (no counter reset there);
holdCompleteCommand 921-932 with command_position 345-393 (achieved :=
False, counters untouched); monitorViolation 487-511 (consecutive and
round counters +1, void checked against consecutive_violations);
monitorAchieve 465-471 together with 963-982 (achieved, consecutive := 0);
graceLostCorrected 826-854 (hold timer restarts, counters untouched);
maintainViolation 856-871 (achieved := False, consecutive and round +1,
shocks_this_violation := 1); state1Shock 880-897 (shocks and consecutive
+1, void when shocks reach MAX_PISHOCK_CYCLES); state1Reachieve 902-910
(consecutive := 0); state2Entered 1009-1016 (_continuous_shock_count := 1,
the monitor's shock already counted); state2Correct 996-1003 (log only: no
achievement flag, no reset); state2Shock 1018-1033 (count and consecutive
+1, void when count reaches MAX_PISHOCK_CYCLES); voidRoundReset is
void_round 438-440 followed by start_round's fresh-round reset 734-744. -/
def violStep (s : ViolSt) (e : VEvent) : Option ViolSt :=
  if s.void_pending then
    match e with
    | .voidRoundReset =>
      some { mode := .initialWait, consecutive_violations := 0,
             round_violations := 0, void_pending := false }
    | _ => none
  else
    match e, s.mode with
    | .initialPositionVerified, .initialWait =>
      some { s with mode := .holding }
    | .holdCompleteCommand, .holding =>
      some { s with mode := .transition false }
    | .monitorViolation, .transition false =>
      let c := s.consecutive_violations + 1
      some { s with
             mode := .transition true,
             consecutive_violations := c,
             round_violations := s.round_violations + 1,
             void_pending := decide (MAX_PISHOCK_CYCLES ≤ c) }
    | .monitorAchieve, .transition _ =>
      some { s with mode := .holding, consecutive_violations := 0 }
    | .monitorAchieve, .state2 _ =>
      some { s with mode := .holding, consecutive_violations := 0 }
    | .graceLostCorrected, .holding => some s
    | .maintainViolation, .holding =>
      some { s with
             mode := .state1Loop 1,
             consecutive_violations := s.consecutive_violations + 1,
             round_violations := s.round_violations + 1 }
    | .state1Shock, .state1Loop k =>
      some { s with
             mode := .state1Loop (k + 1),
             consecutive_violations := s.consecutive_violations + 1,
             void_pending := decide (MAX_PISHOCK_CYCLES ≤ k + 1) }
    | .state1Reachieve, .state1Loop _ =>
      some { s with mode := .holding, consecutive_violations := 0 }
    | .state2Entered, .transition true =>
      some { s with mode := .state2 1 }
    | .state2Correct, .state2 _ => some s
    | .state2Shock, .state2 c =>
      some { s with
             mode := .state2 (c + 1),
             consecutive_violations := s.consecutive_violations + 1,
             void_pending := decide (MAX_PISHOCK_CYCLES ≤ c + 1) }
    | _, _ => none

/-- The violation state as start_round leaves it (game.py lines 734-744):
all counters zero, position not yet achieved, awaiting the opening DOWN
verification. -/
def violInit : ViolSt :=
  { mode := .initialWait, consecutive_violations := 0,
    round_violations := 0, void_pending := false }

/-- States of the violation machinery reachable in a round. -/
inductive ViolReachable : ViolSt → Prop
| init : ViolReachable violInit
| step {s s' : ViolSt} (e : VEvent) :
    ViolReachable s → violStep s e = some s' → ViolReachable s'

/-- The per-mode relation between the mode's own counter and
consecutive_violations that the source maintains. -/
def modeOK : EpMode → Nat → Prop
| .initialWait, c => c = 0
| .holding, c => c = 0
| .transition false, c => c = 0
| .transition true, c => c = 1
| .state1Loop k, c => c = k ∧ 1 ≤ k
| .state2 k, c => c = k ∧ 1 ≤ k

/-- Inductive invariant of the violation machinery. -/
def ViolInv (s : ViolSt) : Prop :=
  modeOK s.mode s.consecutive_violations ∧
  s.consecutive_violations ≤ MAX_PISHOCK_CYCLES ∧
  (s.void_pending = true ↔ s.consecutive_violations = MAX_PISHOCK_CYCLES)

/- ===================== concrete fixtures ===================== -/

/-- The sensor-loss flags as __init__ leaves them (game.py lines 114-115). -/
def clearFlags : LostFlags :=
  { both_sensors_lost := false, sensor_loss_start := none }

/-- A queue snapshot in which both sources are connected and fresh at
time 10. -/
def availSnap : SensorSlot × SensorSlot × Int :=
  ({ stored := SensorState.connected, lastUpdate := 10, latest := some 0 },
   { stored := SensorState.connected, lastUpdate := 10, latest := some 0 }, 10)

/-- A queue snapshot in which both sources are disconnected and stale at
time 10. -/
def unavailSnap : SensorSlot × SensorSlot × Int :=
  ({ stored := SensorState.disconnected, lastUpdate := 0, latest := none },
   { stored := SensorState.disconnected, lastUpdate := 0, latest := none }, 10)

/-- The flags after both sensors are first seen lost at time 10. -/
def lostAt10 : LostFlags :=
  { both_sensors_lost := true, sensor_loss_start := some 10 }

/-- An extension ledger whose pool has exactly 10 seconds remaining. -/
def poolTenLeft : ExtLedger :=
  { total_extension_time_used := TOTAL_EXTENSION_TIME_ALLOWED - 10,
    total_extension_requests := 0, last_extension_request_time := 0 }

/-- The violation state right after the opening DOWN position is verified. -/
def violHolding : ViolSt :=
  { mode := .holding, consecutive_violations := 0,
    round_violations := 0, void_pending := false }

/-- The violation state right after a maintain-position violation fires
from the holding state. -/
def violAfterViolation : ViolSt :=
  { mode := .state1Loop 1, consecutive_violations := 1,
    round_violations := 1, void_pending := false }

/- ===================== theorems ===================== -/

theorem violInv_init : ViolInv violInit := by
  refine ⟨rfl, by decide, by decide⟩

theorem violInv_step {s s' : ViolSt} (e : VEvent) (hs : ViolInv s)
    (h : violStep s e = some s') : ViolInv s' := by
  obtain ⟨mo, cv, rv, vp⟩ := s
  obtain ⟨hmode, hle, hvoid⟩ := hs
  unfold violStep at h
  dsimp only at h hmode hle hvoid
  by_cases hv : vp = true
  · rw [if_pos hv] at h
    cases e <;> simp at h
    subst h
    refine ⟨rfl, Nat.zero_le _, ?_⟩
    show false = true ↔ (0 : Nat) = 7
    exact ⟨fun hft => absurd hft Bool.false_ne_true, fun h7 => absurd h7 (by decide)⟩
  · rw [if_neg hv] at h
    replace hv : vp = false := by
      simpa using hv
    subst hv
    have hle7 : cv ≤ 7 := hle
    have hne : cv ≠ 7 := fun hc => absurd (hvoid.mpr hc) Bool.false_ne_true
    cases e
    · -- initialPositionVerified
      cases mo <;> simp at h
      subst h
      exact ⟨hmode, hle, hvoid⟩
    · -- holdCompleteCommand
      cases mo <;> simp at h
      subst h
      exact ⟨hmode, hle, hvoid⟩
    · -- monitorViolation
      cases mo <;> try simp at h
      rename_i vf
      cases vf <;> simp at h
      subst h
      have h0 : cv = 0 := hmode
      refine ⟨?_, ?_, ?_⟩
      · show cv + 1 = 1
        omega
      · show cv + 1 ≤ 7
        omega
      · show decide (7 ≤ cv + 1) = true ↔ cv + 1 = 7
        simp only [decide_eq_true_eq]
        omega
    · -- monitorAchieve
      cases mo <;> simp at h
      all_goals subst h
      all_goals refine ⟨rfl, Nat.zero_le _, ?_⟩
      all_goals show false = true ↔ (0 : Nat) = 7
      all_goals exact ⟨fun hft => absurd hft Bool.false_ne_true, fun h7 => absurd h7 (by decide)⟩
    · -- graceLostCorrected
      cases mo <;> simp at h
      subst h
      exact ⟨hmode, hle, hvoid⟩
    · -- maintainViolation
      cases mo <;> simp at h
      subst h
      have h0 : cv = 0 := hmode
      refine ⟨?_, ?_, ?_⟩
      · show cv + 1 = 1 ∧ 1 ≤ 1
        exact ⟨by omega, le_refl 1⟩
      · show cv + 1 ≤ 7
        omega
      · show false = true ↔ cv + 1 = 7
        exact ⟨fun hft => absurd hft Bool.false_ne_true, fun h7 => absurd h7 (by omega)⟩
    · -- state1Shock
      cases mo <;> simp at h
      subst h
      rename_i k
      obtain ⟨hk, hk1⟩ : cv = k ∧ 1 ≤ k := hmode
      refine ⟨?_, ?_, ?_⟩
      · show cv + 1 = k + 1 ∧ 1 ≤ k + 1
        exact ⟨by omega, by omega⟩
      · show cv + 1 ≤ 7
        omega
      · show decide (7 ≤ k + 1) = true ↔ cv + 1 = 7
        simp only [decide_eq_true_eq]
        omega
    · -- state1Reachieve
      cases mo <;> simp at h
      subst h
      refine ⟨rfl, Nat.zero_le _, ?_⟩
      show false = true ↔ (0 : Nat) = 7
      exact ⟨fun hft => absurd hft Bool.false_ne_true, fun h7 => absurd h7 (by decide)⟩
    · -- state2Entered
      cases mo <;> try simp at h
      rename_i vf
      cases vf <;> simp at h
      subst h
      have h1 : cv = 1 := hmode
      refine ⟨?_, ?_, ?_⟩
      · show cv = 1 ∧ 1 ≤ 1
        exact ⟨h1, le_refl 1⟩
      · exact hle
      · exact hvoid
    · -- state2Correct
      cases mo <;> simp at h
      subst h
      exact ⟨hmode, hle, hvoid⟩
    · -- state2Shock
      cases mo <;> simp at h
      subst h
      rename_i k
      obtain ⟨hk, hk1⟩ : cv = k ∧ 1 ≤ k := hmode
      refine ⟨?_, ?_, ?_⟩
      · show cv + 1 = k + 1 ∧ 1 ≤ k + 1
        exact ⟨by omega, by omega⟩
      · show cv + 1 ≤ 7
        omega
      · show decide (7 ≤ k + 1) = true ↔ cv + 1 = 7
        simp only [decide_eq_true_eq]
        omega
    · -- voidRoundReset
      cases mo <;> simp at h

/-- C1: code-bug theorem.  For every level and every violation count, the
pass/fail computation of end_round raises KeyError instead of producing a
Bool, because none of the three LEVEL_CONFIG records carries a
violation_limit entry; the claimed `passed = roundViolationsCount <
violationLimit` is therefore never evaluated. -/
theorem end_round_pass_computation_raises (lvl : Level) (v : Int) :
    end_round_passed lvl v = .error (.keyError .violation_limit) ∧
    (LEVEL_CONFIG lvl).lookup ConfigKey.violation_limit = none := by
  cases lvl <;> exact ⟨rfl, rfl⟩

/-- C2: code-bug theorem.  void_round leaves void_occurred set, so when the
next round — drawn duration 200 and itself never voided — ends and
apply_round_result runs, its time is not credited: completed_training_time
stays 0 instead of increasing by exactly 200, whichever way the round is
judged. -/
theorem round_after_void_not_credited :
    (apply_round_result true
      (start_round_ledger 200 (void_round_ledger initLedger))).1.completed_training_time
      = 0 ∧
    (apply_round_result false
      (start_round_ledger 200 (void_round_ledger initLedger))).1.completed_training_time
      = 0 ∧
    (start_round_ledger 200 (void_round_ledger initLedger)).void_occurred = true := by
  exact ⟨rfl, rfl, rfl⟩

/-- C8: code-bug theorem.  apply_round_result raises KeyError on the
violation-count log line before any level-ladder code runs: a pass at Easy
leaves the level Easy, a fail at Medium leaves it Medium (no reset), and a
pass at Hard credits only the plain round duration, never the cycle
bonus. -/
theorem apply_round_result_never_moves_level :
    (apply_round_result true initLedger).1.current_level = Level.easy ∧
    (apply_round_result true initLedger).2
      = some (PyError.keyError ConfigKey.violation_limit) ∧
    (apply_round_result false
      { initLedger with current_level := Level.medium }).1.current_level
      = Level.medium ∧
    (apply_round_result true
      { initLedger with
        current_level := Level.hard,
        current_round_duration := 200 }).1.completed_training_time = 200 := by
  exact ⟨rfl, rfl, rfl, rfl⟩

/-- C3: counterexample.  A preparation-window poll made with the session
deadline already reached does not force a session end — it keeps polling
the buttons — refuting the claim that every phase's poll iteration forces
a session end once the deadline is reached. -/
theorem prep_iter_ignores_deadline :
    prep_iter 0 true false false false = Outcome.cont ∧
    prep_iter 0 true false false false ≠ Outcome.endGame := by
  exact ⟨rfl, by decide⟩

/-- C3 amended: the Round main loop and the Break loop check the session
deadline each poll (after sensor-loss and phase-expiry checks) and force a
session end when it has passed, but the Preparation window, the forced
void break and an active Extension never consult the deadline and never
force a session end, whatever their inputs. -/
theorem deadline_forces_end_in_round_and_break_only :
    (∀ e d : Int, e < d → round_iter false e d true = Outcome.endGame) ∧
    (∀ e d : Int, e < d → ∀ b c : Bool,
      break_iter false e d true b c = Outcome.endGame) ∧
    (∀ (e : Int) (dl p q b2 : Bool), prep_iter e dl p q b2 ≠ Outcome.endGame) ∧
    (∀ (e : Int) (sl dl : Bool), void_break_iter e sl dl ≠ Outcome.endGame) ∧
    (∀ fd b1 b2 dl : Bool, extension_iter fd b1 b2 dl ≠ Outcome.endGame) := by
  refine ⟨?_, ?_, ?_, ?_, ?_⟩
  · intro e d hlt
    unfold round_iter
    rw [if_neg (by simp), if_neg (not_le.mpr hlt), if_pos rfl]
  · intro e d hlt b c
    unfold break_iter
    rw [if_neg (by simp), if_neg (not_le.mpr hlt), if_pos rfl]
  · intro e dl p q b2
    unfold prep_iter
    split
    · split <;> decide
    · decide
  · intro e sl dl
    unfold void_break_iter
    split
    · split <;> decide
    · decide
  · intro fd b1 b2 dl
    unfold extension_iter
    split <;> decide

/-- C3 amended, witness at concrete inputs. -/
theorem deadline_forces_end_witness :
    round_iter false 0 1 true = Outcome.endGame ∧
    break_iter false 0 1 true false false = Outcome.endGame ∧
    prep_iter 0 true false false false ≠ Outcome.endGame ∧
    void_break_iter 0 false true ≠ Outcome.endGame ∧
    extension_iter false false false true ≠ Outcome.endGame :=
  ⟨deadline_forces_end_in_round_and_break_only.1 0 1 (by decide),
   deadline_forces_end_in_round_and_break_only.2.1 0 1 (by decide) false false,
   deadline_forces_end_in_round_and_break_only.2.2.1 0 true false false false,
   deadline_forces_end_in_round_and_break_only.2.2.2.1 0 false true,
   deadline_forces_end_in_round_and_break_only.2.2.2.2 false false false true⟩

/-- C4: in every state of the violation machinery reachable within a round,
the consecutive-violation counter never exceeds MAX_PISHOCK_CYCLES, it is
exactly 0 whenever the commanded position is currently achieved (holding),
and on any state where it has reached the ceiling the round void has been
triggered on that very step. -/
theorem consecutive_violations_ceiling (s : ViolSt) (hr : ViolReachable s) :
    s.consecutive_violations ≤ MAX_PISHOCK_CYCLES ∧
    (s.mode = EpMode.holding → s.consecutive_violations = 0) ∧
    (s.consecutive_violations = MAX_PISHOCK_CYCLES → s.void_pending = true) := by
  have hinv : ViolInv s := by
    induction hr with
    | init => exact violInv_init
    | step e hprev heq ih => exact violInv_step e ih heq
  obtain ⟨hmode, hle, hvoid⟩ := hinv
  refine ⟨hle, ?_, fun hc => hvoid.mpr hc⟩
  intro hm
  rw [hm] at hmode
  exact hmode

/-- C4, witness: the state one verified position and one maintain-violation
into a round is reachable, and the theorem's bounds hold there. -/
theorem consecutive_violations_ceiling_witness :
    violAfterViolation.consecutive_violations ≤ MAX_PISHOCK_CYCLES ∧
    (violAfterViolation.mode = EpMode.holding →
      violAfterViolation.consecutive_violations = 0) ∧
    (violAfterViolation.consecutive_violations = MAX_PISHOCK_CYCLES →
      violAfterViolation.void_pending = true) :=
  consecutive_violations_ceiling violAfterViolation
    (ViolReachable.step VEvent.maintainViolation
      ((ViolReachable.step VEvent.initialPositionVerified ViolReachable.init
          (by decide) : ViolReachable violHolding))
      (by decide))

/-- C5: whenever the primary source's stored state is Connected, its update
is fresher than the 5-second staleness window, and its latest sample is
present, get_board_angle returns exactly the primary's sample, whatever the
backup slot and the fusion flags hold. -/
theorem get_board_angle_prefers_primary (f : FusionState)
    (primary backup : SensorSlot) (now : Int) (a : Int)
    (hstate : primary.stored = SensorState.connected)
    (hfresh : primary.lastUpdate > now - 5)
    (hdata : primary.latest = some a) :
    (get_board_angle f primary backup now).angle = some a := by
  have hss : get_sensor_state primary now = SensorState.connected := by
    unfold get_sensor_state
    rw [if_neg (by omega), hstate]
  unfold get_board_angle
  simp [hss, hfresh, get_all_angles_entry, hdata]

/-- C5, witness: a fresh, connected primary with sample 42 beats a dead
backup even when the fusion flags point at the backup. -/
theorem get_board_angle_prefers_primary_witness :
    (get_board_angle { activeIsPrimary := false, both_sensors_were_lost := true }
      { stored := SensorState.connected, lastUpdate := 100, latest := some 42 }
      { stored := SensorState.error, lastUpdate := 0, latest := none }
      100).angle = some 42 :=
  get_board_angle_prefers_primary _ _ _ 100 42 rfl (by decide) rfl

theorem run_sensor_checks_append (st : LostFlags)
    (l1 l2 : List (SensorSlot × SensorSlot × Int)) :
    run_sensor_checks st (l1 ++ l2) =
      ((run_sensor_checks (run_sensor_checks st l1).1 l2).1,
        (run_sensor_checks st l1).2 ++
          (run_sensor_checks (run_sensor_checks st l1).1 l2).2) := by
  induction l1 generalizing st with
  | nil => simp [run_sensor_checks]
  | cons x xs ih => simp [run_sensor_checks, ih]

theorem run_avail_from_clear (n : Nat) :
    run_sensor_checks clearFlags (List.replicate n availSnap) =
      (clearFlags, []) := by
  induction n with
  | zero => rfl
  | succ m ih =>
    rw [List.replicate_succ]
    have hcheck : check_both_sensors_lost clearFlags availSnap.1 availSnap.2.1
        availSnap.2.2 = { result := false, flags := clearFlags, cues := [] } := by
      decide
    simp [run_sensor_checks, hcheck, ih]

theorem run_unavail_from_lost (n : Nat) :
    run_sensor_checks lostAt10 (List.replicate n unavailSnap) =
      (lostAt10, []) := by
  induction n with
  | zero => rfl
  | succ m ih =>
    rw [List.replicate_succ]
    have hcheck : check_both_sensors_lost lostAt10 unavailSnap.1 unavailSnap.2.1
        unavailSnap.2.2 = { result := true, flags := lostAt10, cues := [] } := by
      decide
    simp [run_sensor_checks, hcheck, ih]

theorem run_unavail_from_clear (n : Nat) (h : 1 ≤ n) :
    run_sensor_checks clearFlags (List.replicate n unavailSnap) =
      (lostAt10, [AudioCue.sensorIssue]) := by
  obtain ⟨m, rfl⟩ : ∃ m, n = m + 1 := ⟨n - 1, by omega⟩
  rw [List.replicate_succ]
  have hcheck : check_both_sensors_lost clearFlags unavailSnap.1 unavailSnap.2.1
      unavailSnap.2.2 =
      { result := true, flags := lostAt10, cues := [AudioCue.sensorIssue] } := by
    decide
  simp [run_sensor_checks, hcheck, run_unavail_from_lost]

theorem run_avail_from_lost (n : Nat) (h : 1 ≤ n) :
    run_sensor_checks lostAt10 (List.replicate n availSnap) =
      (clearFlags, [AudioCue.sensorIssueResolved]) := by
  obtain ⟨m, rfl⟩ : ∃ m, n = m + 1 := ⟨n - 1, by omega⟩
  rw [List.replicate_succ]
  have hcheck : check_both_sensors_lost lostAt10 availSnap.1 availSnap.2.1
      availSnap.2.2 =
      { result := false, flags := clearFlags,
        cues := [AudioCue.sensorIssueResolved] } := by
    decide
  simp [run_sensor_checks, hcheck, run_avail_from_clear]

/-- C6: polling check_both_sensors_lost over the availability phases
(available, available, unavailable, unavailable, available), each phase
polled any positive number of times, plays the lost cue exactly once (on
the falling edge) and the recovered cue exactly once (on the rising
edge). -/
theorem both_sensors_lost_edges_fire_once (n1 n2 n3 n4 n5 : Nat)
    (h1 : 1 ≤ n1) (h2 : 1 ≤ n2) (h3 : 1 ≤ n3) (h4 : 1 ≤ n4) (h5 : 1 ≤ n5) :
    ((run_sensor_checks clearFlags
        (List.replicate n1 availSnap ++ (List.replicate n2 availSnap ++
          (List.replicate n3 unavailSnap ++ (List.replicate n4 unavailSnap ++
          List.replicate n5 availSnap))))).2.count AudioCue.sensorIssue = 1 ∧
      (run_sensor_checks clearFlags
        (List.replicate n1 availSnap ++ (List.replicate n2 availSnap ++
          (List.replicate n3 unavailSnap ++ (List.replicate n4 unavailSnap ++
          List.replicate n5 availSnap))))).2.count AudioCue.sensorIssueResolved = 1) := by
  rw [run_sensor_checks_append, run_avail_from_clear n1]
  simp only [List.nil_append]
  rw [run_sensor_checks_append, run_avail_from_clear n2]
  simp only [List.nil_append]
  rw [run_sensor_checks_append, run_unavail_from_clear n3 h3]
  rw [run_sensor_checks_append, run_unavail_from_lost n4]
  simp only [List.append_nil]
  rw [run_avail_from_lost n5 h5]
  decide

/-- C6, witness: two polls per phase still yield one cue of each kind. -/
theorem both_sensors_lost_edges_fire_once_witness :
    ((run_sensor_checks clearFlags
        (List.replicate 2 availSnap ++ (List.replicate 2 availSnap ++
          (List.replicate 2 unavailSnap ++ (List.replicate 2 unavailSnap ++
          List.replicate 2 availSnap))))).2.count AudioCue.sensorIssue = 1 ∧
      (run_sensor_checks clearFlags
        (List.replicate 2 availSnap ++ (List.replicate 2 availSnap ++
          (List.replicate 2 unavailSnap ++ (List.replicate 2 unavailSnap ++
          List.replicate 2 availSnap))))).2.count AudioCue.sensorIssueResolved = 1) :=
  both_sensors_lost_edges_fire_once 2 2 2 2 2 (by decide) (by decide) (by decide)
    (by decide) (by decide)

/-- C7: counterexample.  With exactly 10 seconds left in the extension
pool, a request is not denied with the limit cue: the counter increments,
the limit branch is skipped (remaining = 10 > 0), and the handler then
crashes on the undefined name BREAK_EXTENSION_CHANCE before any draw can
decide. -/
theorem ten_seconds_left_not_limit_denied :
    (process_extension_request poolTenLeft 0 0).2.1 = ExtOutcome.raisedNameError ∧
    (process_extension_request poolTenLeft 0 0).2.1 ≠ ExtOutcome.deniedLimit ∧
    (process_extension_request poolTenLeft 0 0).2.2 ≠ [AudioCue.extensionDeniedLimit] ∧
    (process_extension_request poolTenLeft 0 0).1.total_extension_requests =
      poolTenLeft.total_extension_requests + 1 := by
  refine ⟨rfl, by decide, by decide, rfl⟩

/-- C7 amended: a request arriving with 10 seconds left in the pool is not
limit-denied — the limit denial fires exactly when the pool is exhausted
(remaining ≤ 0) — total_extension_requests still increments by one in
every case, and with time remaining the handler raises NameError on the
undefined BREAK_EXTENSION_CHANCE, independent of the random draw. -/
theorem extension_limit_denial_iff_pool_exhausted (st : ExtLedger)
    (now : Int) (draw : ℚ) :
    ((process_extension_request st now draw).2.1 = ExtOutcome.deniedLimit ↔
      TOTAL_EXTENSION_TIME_ALLOWED - st.total_extension_time_used ≤ 0) ∧
    (process_extension_request st now draw).1.total_extension_requests =
      st.total_extension_requests + 1 ∧
    (TOTAL_EXTENSION_TIME_ALLOWED - st.total_extension_time_used = 10 →
      (process_extension_request st now draw).2.1 = ExtOutcome.raisedNameError) := by
  by_cases hrem : TOTAL_EXTENSION_TIME_ALLOWED - st.total_extension_time_used ≤ 0
  · refine ⟨?_, ?_, ?_⟩
    · simp [process_extension_request, hrem]
    · simp [process_extension_request, hrem]
    · intro h10
      omega
  · refine ⟨?_, ?_, ?_⟩
    · simp [process_extension_request, hrem, BREAK_EXTENSION_CHANCE]
    · simp [process_extension_request, hrem, BREAK_EXTENSION_CHANCE]
    · intro h10
      simp [process_extension_request, hrem, BREAK_EXTENSION_CHANCE]

/-- C7 amended, witness at the 10-seconds-remaining pool. -/
theorem extension_limit_denial_iff_pool_exhausted_witness :
    ((process_extension_request poolTenLeft 0 0).2.1 = ExtOutcome.deniedLimit ↔
      TOTAL_EXTENSION_TIME_ALLOWED - poolTenLeft.total_extension_time_used ≤ 0) ∧
    (process_extension_request poolTenLeft 0 0).1.total_extension_requests =
      poolTenLeft.total_extension_requests + 1 ∧
    (process_extension_request poolTenLeft 0 0).2.1 = ExtOutcome.raisedNameError :=
  ⟨(extension_limit_denial_iff_pool_exhausted poolTenLeft 0 0).1,
   (extension_limit_denial_iff_pool_exhausted poolTenLeft 0 0).2.1,
   (extension_limit_denial_iff_pool_exhausted poolTenLeft 0 0).2.2 (by decide)⟩

/-- C9: every completed preparation window executes the duplicated
strobe-off / start_round tail: with the nested chain returning from
end_game (session deadline reached inside the round), the session is
already Finished when the tail's second half runs, and it still starts a
second round, logging a roundStarted event after a gameEnded one and two
round starts in all. -/
theorem enter_preparation_tail_runs_twice (t : SessionTrace) :
    enter_preparation_tail end_game_call t =
      { state := GameState.finished,
        log := t.log ++ [Ev.strobeOff, Ev.roundStarted, Ev.gameEnded,
          Ev.strobeOff, Ev.roundStarted, Ev.gameEnded] } ∧
    (strobe_off_call (start_round_call end_game_call (strobe_off_call t))).state =
      GameState.finished ∧
    (enter_preparation_tail end_game_call t).log.count Ev.roundStarted =
      t.log.count Ev.roundStarted + 2 := by
  refine ⟨?_, rfl, ?_⟩
  · simp [enter_preparation_tail, start_round_call, strobe_off_call, end_game_call]
  · simp [enter_preparation_tail, start_round_call, strobe_off_call, end_game_call,
      List.count_append]

/-- C10: with both sources in the Error or Connecting state and update
timestamps fresher than 5 seconds, get_board_angle returns no angle (its
availability test demands state = Connected) while check_both_sensors_lost
reports the sensors present (its test only excludes Disconnected or
stale), so a round poll in that situation neither obtains data nor enters
sensor-loss handling — it just continues. -/
theorem availability_criteria_diverge (f : FusionState) (st : LostFlags)
    (primary backup : SensorSlot) (now : Int)
    (hp : primary.stored = SensorState.error ∨
      primary.stored = SensorState.connecting)
    (hb : backup.stored = SensorState.error ∨
      backup.stored = SensorState.connecting)
    (hpf : primary.lastUpdate > now - 5)
    (hbf : backup.lastUpdate > now - 5) :
    (get_board_angle f primary backup now).angle = none ∧
    (check_both_sensors_lost st primary backup now).result = false ∧
    (∀ elapsed duration : Int, elapsed < duration →
      round_iter (check_both_sensors_lost st primary backup now).result
        elapsed duration false = Outcome.cont) := by
  have hpss : get_sensor_state primary now = primary.stored := by
    unfold get_sensor_state
    rw [if_neg (by omega)]
  have hbss : get_sensor_state backup now = backup.stored := by
    unfold get_sensor_state
    rw [if_neg (by omega)]
  have hpc : ¬ primary.stored = SensorState.connected := by
    rcases hp with h | h <;> rw [h] <;> decide
  have hbc : ¬ backup.stored = SensorState.connected := by
    rcases hb with h | h <;> rw [h] <;> decide
  have hpd : ¬ primary.stored = SensorState.disconnected := by
    rcases hp with h | h <;> rw [h] <;> decide
  have hbd : ¬ backup.stored = SensorState.disconnected := by
    rcases hb with h | h <;> rw [h] <;> decide
  have hres : (check_both_sensors_lost st primary backup now).result = false := by
    unfold check_both_sensors_lost
    by_cases hstl : st.both_sensors_lost
    · simp [hpss, hbss, hpd, hbd, hpf, hbf, hstl]
    · simp [hpss, hbss, hpd, hbd, hpf, hbf, hstl]
  refine ⟨?_, hres, ?_⟩
  · unfold get_board_angle
    simp [hpss, hbss, hpc, hbc]
  · intro elapsed duration hlt
    rw [hres]
    unfold round_iter
    rw [if_neg (by simp), if_neg (not_le.mpr hlt), if_neg (by simp)]

/-- C10, witness: both sources in Error state with updates at the current
instant. -/
theorem availability_criteria_diverge_witness :
    (get_board_angle { activeIsPrimary := true, both_sensors_were_lost := false }
      { stored := SensorState.error, lastUpdate := 50, latest := some 3 }
      { stored := SensorState.connecting, lastUpdate := 50, latest := some 4 }
      50).angle = none ∧
    (check_both_sensors_lost clearFlags
      { stored := SensorState.error, lastUpdate := 50, latest := some 3 }
      { stored := SensorState.connecting, lastUpdate := 50, latest := some 4 }
      50).result = false ∧
    (∀ elapsed duration : Int, elapsed < duration →
      round_iter (check_both_sensors_lost clearFlags
        { stored := SensorState.error, lastUpdate := 50, latest := some 3 }
        { stored := SensorState.connecting, lastUpdate := 50, latest := some 4 }
        50).result elapsed duration false = Outcome.cont) :=
  availability_criteria_diverge _ clearFlags _ _ 50 (Or.inl rfl) (Or.inr rfl)
    (by decide) (by decide)

end UpDown
